import Mathlib

/-!
Verification of the FakeMute plugin core (`src/index.tsx`): the shortcut
model (normalize / format / match), the keybind recorder arbiter, the
fake-mute / fake-deafen shadow-state synchronizer, the global hotkey
dispatcher and the listener lifecycle, shallowly embedded in Lean.
Nullable TypeScript values become `Option`, the mutable module-level
variables become explicit state records, and calls into the media engine
are collected as explicit lists of emitted engine calls.
-/

namespace FakeMute

/-- A keyboard event as observed by the handlers: the fields of the DOM
`KeyboardEvent` that `src/index.tsx` reads.  `isRepeat` embeds the DOM
field `event.repeat`; `target` is `none` when `event.target` is `null`. -/
structure KeyboardEvent where
  key : String
  code : String
  ctrlKey : Bool
  shiftKey : Bool
  altKey : Bool
  metaKey : Bool
  defaultPrevented : Bool
  isRepeat : Bool
  target : Option (String × Bool) := none
  deriving DecidableEq, Repr

/-- The event target, when it is an HTML element: its tag name together
with whether `target.closest` finds an enclosing region with
`contenteditable` set to true.  `event.target` itself is the
`Option (String × Bool)` field above: `none` models both a null target and
a non-`HTMLElement` target, which `shouldIgnoreKeybindTarget` treats
alike (it returns false for both). -/
abbrev EventTargetElement := String × Bool

/-- `KeybindSetting` from `src/index.tsx`: one stored shortcut. -/
structure KeybindSetting where
  key : String
  code : String
  ctrl : Bool
  shift : Bool
  alt : Bool
  meta : Bool
  deriving DecidableEq, Repr

/-- `MODIFIER_KEYS` from `src/index.tsx`. -/
def MODIFIER_KEYS : List String := ["Shift", "Control", "Alt", "Meta"]

/-- `KEY_LABEL_OVERRIDES` from `src/index.tsx`, as an association list. -/
def KEY_LABEL_OVERRIDES : List (String × String) :=
  [(" ", "Space"), ("Spacebar", "Space"), ("Escape", "Esc"),
   ("ArrowUp", "Up"), ("ArrowDown", "Down"), ("ArrowLeft", "Left"),
   ("ArrowRight", "Right"), ("PageUp", "Page Up"), ("PageDown", "Page Down")]

/-- JavaScript's `toUpperCase`, applied character by character (the keys
involved are ASCII, where this agrees with the JavaScript behaviour). -/
def toUpperCase (s : String) : String := String.mk (s.data.map Char.toUpper)

/-- JavaScript's `toLowerCase`, applied character by character. -/
def toLowerCase (s : String) : String := String.mk (s.data.map Char.toLower)

/-- `formatKeyName` from `src/index.tsx`. -/
def formatKeyName (key : String) (code : String) : String :=
  match KEY_LABEL_OVERRIDES.lookup key with
  | some label => label
  | none =>
    if (key = "Dead" ∨ key = "Unidentified") ∧ code.startsWith "Key" then
      toUpperCase (code.drop 3)
    else if (key = "Dead" ∨ key = "Unidentified") ∧ code.startsWith "Digit" then
      code.drop 5
    else if (key = "Dead" ∨ key = "Unidentified") ∧ code.startsWith "Numpad" then
      "Numpad " ++ code.drop 6
    else if key.length = 1 then toUpperCase key
    else key

/-- `formatKeybind` from `src/index.tsx`; the imported platform constant
`IS_MAC` is passed as an explicit argument. -/
def formatKeybind (IS_MAC : Bool) (keybind : Option KeybindSetting) : String :=
  match keybind with
  | none => "Not set"
  | some kb =>
    let parts : List String :=
      (if kb.ctrl then ["Ctrl"] else []) ++
      (if kb.shift then ["Shift"] else []) ++
      (if kb.alt then [if IS_MAC then "Option" else "Alt"] else []) ++
      (if kb.meta then [if IS_MAC then "Cmd" else "Meta"] else []) ++
      [formatKeyName kb.key kb.code]
    String.intercalate "+" parts

/-- `keybindFromEvent` from `src/index.tsx`. -/
def keybindFromEvent (event : KeyboardEvent) : Option KeybindSetting :=
  if MODIFIER_KEYS.contains event.key then none
  else some { key := event.key, code := event.code, ctrl := event.ctrlKey,
              shift := event.shiftKey, alt := event.altKey, meta := event.metaKey }

/-- `matchesKeybind` from `src/index.tsx`.  The JavaScript truthiness test
`keybind.code ?` is the emptiness test on the stored code string. -/
def matchesKeybind (event : KeyboardEvent) (keybind : Option KeybindSetting) : Bool :=
  match keybind with
  | none => false
  | some kb =>
    let keyMatches := if kb.code ≠ "" then event.code == kb.code else event.key == kb.key
    if !keyMatches then false
    else
      event.ctrlKey == kb.ctrl && event.shiftKey == kb.shift &&
        event.altKey == kb.alt && event.metaKey == kb.meta

/-- `shouldIgnoreKeybindTarget` from `src/index.tsx`: `none` models a null
or non-element target (returns false); an element target is ignored when
it sits inside a `contenteditable` region or its lower-cased tag name is
input, textarea or select. -/
def shouldIgnoreKeybindTarget (target : Option EventTargetElement) : Bool :=
  match target with
  | none => false
  | some (tagName, inEditable) =>
    if inEditable then true
    else
      let tag := toLowerCase tagName
      tag == "input" || tag == "textarea" || tag == "select"

/-- A media-engine connection: the only field the plugin reads is
`context` (compared against the string "default"); its `setSelfMute` /
`setSelfDeaf` methods are modelled by the emitted `EngineCall`s below. -/
structure Connection where
  context : String
  deriving DecidableEq, Repr

/-- The media engine: its iterable `connections` collection, in iteration
order. -/
structure MediaEngine where
  connections : List Connection
  deriving DecidableEq, Repr

/-- A call observed on the real engine: `connection.setSelfMute(b)` or
`connection.setSelfDeaf(b)`, tagged with the connection it targets. -/
inductive EngineCall where
  | selfMute (connection : Connection) (muted : Bool)
  | selfDeaf (connection : Connection) (deafened : Bool)
  deriving DecidableEq, Repr

/-- The voice state returned by `VoiceStateStore.getVoiceStateForUser`:
its `selfMute` / `selfDeaf` properties may each be undefined (`none`),
which the source coalesces with `?? null` and coerces with `!!`. -/
structure VoiceState where
  selfMute : Option Bool
  selfDeaf : Option Bool
  deriving DecidableEq, Repr

/-- The external world the synchronizer reads: `getSelfVoiceState()` (a
missing user, missing store or missing per-user state all collapse to
`none`) and `MediaEngineStore.getMediaEngine()?.connections` (a missing
store, engine or connections collection all collapse to `none`). -/
structure Env where
  voiceState : Option VoiceState
  mediaEngine : Option MediaEngine
  deriving DecidableEq, Repr

/-- The loop body of `getDefaultMediaConnection`: walk the connections in
iteration order carrying `fallbackConnection` (set to the first
connection seen), returning early on the first connection whose `context`
is "default". -/
def findConnection : List Connection → Option Connection → Option Connection
  | [], fallbackConnection => fallbackConnection
  | connection :: rest, fallbackConnection =>
    let fallbackConnection :=
      if fallbackConnection.isNone then some connection else fallbackConnection
    if connection.context == "default" then some connection
    else findConnection rest fallbackConnection

/-- `getDefaultMediaConnection` from `src/index.tsx`. -/
def getDefaultMediaConnection (mediaEngine : Option MediaEngine) : Option Connection :=
  match mediaEngine with
  | none => none
  | some engine => findConnection engine.connections none

/-- `setLocalMute` from `src/index.tsx`: resolves the default connection
and, when one exists, emits a `setSelfMute` call on it; otherwise the
optional chain fizzles and no call is emitted. -/
def setLocalMute (mediaEngine : Option MediaEngine) (muted : Bool) : List EngineCall :=
  match getDefaultMediaConnection mediaEngine with
  | some connection => [EngineCall.selfMute connection muted]
  | none => []

/-- `setLocalDeaf` from `src/index.tsx`. -/
def setLocalDeaf (mediaEngine : Option MediaEngine) (deafened : Bool) : List EngineCall :=
  match getDefaultMediaConnection mediaEngine with
  | some connection => [EngineCall.selfDeaf connection deafened]
  | none => []

/-- `syncFakeMute` from `src/index.tsx`: the module variable
`lastSelfMute` (the mute shadow slot) is passed in and the updated slot
is returned, together with the engine calls emitted.  `voiceState?.selfMute
?? null` is the bind on the optional voice state, and
`!!voiceState.selfMute` coerces an undefined property to `false`. -/
def syncFakeMute (env : Env) (nextFakeMute : Bool) (lastSelfMute : Option Bool) :
    Option Bool × List EngineCall :=
  let voiceState := env.voiceState
  if nextFakeMute then
    (voiceState.bind VoiceState.selfMute, setLocalMute env.mediaEngine false)
  else
    match lastSelfMute with
    | some prev => (none, setLocalMute env.mediaEngine prev)
    | none =>
      match voiceState with
      | some vs => (none, setLocalMute env.mediaEngine (vs.selfMute.getD false))
      | none => (none, [])

/-- `syncFakeDeafen` from `src/index.tsx`, the deafen channel of the same
logic over the `lastSelfDeaf` shadow slot. -/
def syncFakeDeafen (env : Env) (nextFakeDeafen : Bool) (lastSelfDeaf : Option Bool) :
    Option Bool × List EngineCall :=
  let voiceState := env.voiceState
  if nextFakeDeafen then
    (voiceState.bind VoiceState.selfDeaf, setLocalDeaf env.mediaEngine false)
  else
    match lastSelfDeaf with
    | some prev => (none, setLocalDeaf env.mediaEngine prev)
    | none =>
      match voiceState with
      | some vs => (none, setLocalDeaf env.mediaEngine (vs.selfDeaf.getD false))
      | none => (none, [])

/-- The mutable plugin state `handleHotkeys` touches: the persisted
settings (`settings.store`: the two fake flags and the two hotkeys), the
two shadow slots, and the `isRecordingKeybind` suppression flag. -/
structure PluginState where
  fakeMute : Bool
  fakeDeafen : Bool
  fakeMuteHotkey : Option KeybindSetting
  fakeDeafenHotkey : Option KeybindSetting
  lastSelfMute : Option Bool
  lastSelfDeaf : Option Bool
  isRecordingKeybind : Bool
  deriving DecidableEq, Repr

/-- `handleHotkeys` from `src/index.tsx`: returns the updated plugin
state, the engine calls emitted through the synchronizers, and whether
the event was handled (`preventDefault` / `stopPropagation` issued). -/
def handleHotkeys (env : Env) (event : KeyboardEvent) (st : PluginState) :
    PluginState × List EngineCall × Bool :=
  if event.defaultPrevented || event.isRepeat || st.isRecordingKeybind then (st, [], false)
  else if shouldIgnoreKeybindTarget event.target then (st, [], false)
  else
    let (st1, calls1, handled1) :=
      if matchesKeybind event st.fakeMuteHotkey then
        let next := !st.fakeMute
        let (slot, calls) := syncFakeMute env next st.lastSelfMute
        ({ st with fakeMute := next, lastSelfMute := slot }, calls, true)
      else (st, [], false)
    let (st2, calls2, handled2) :=
      if matchesKeybind event st1.fakeDeafenHotkey then
        let next := !st1.fakeDeafen
        let (slot, calls) := syncFakeDeafen env next st1.lastSelfDeaf
        ({ st1 with fakeDeafen := next, lastSelfDeaf := slot }, calls, true)
      else (st1, [], false)
    (st2, calls1 ++ calls2, handled1 || handled2)

/-- The module-level recorder and listener globals of `src/index.tsx`,
together with the per-row React `isRecording` flags of the mounted
`KeybindRow` components (rows indexed by `Nat`; each row's stable
`stopRecording` callback is identified with its row index, so
`activeKeybindRecorderStop` holds the index of the registered row). -/
structure RecorderState where
  rowRecording : Nat → Bool
  activeKeybindRecorderStop : Option Nat
  isRecordingKeybind : Bool
  hotkeyListenerActive : Bool

/-- The initial globals: no row recording, no registered stop capability,
recording suppression off, listener not attached. -/
def initialRecorderState : RecorderState :=
  { rowRecording := fun _ => false, activeKeybindRecorderStop := none,
    isRecordingKeybind := false, hotkeyListenerActive := false }

/-- The `KeybindRow` effect body for a row whose `isRecording` is false
(the cleanup path in `src/index.tsx`): deregister the row's stop
capability if it is the registered one, then recompute
`isRecordingKeybind` from whether any capability remains registered. -/
def runStopEffect (r : Nat) (s : RecorderState) : RecorderState :=
  let s1 :=
    if s.activeKeybindRecorderStop = some r then
      { s with activeKeybindRecorderStop := none }
    else s
  { s1 with isRecordingKeybind := s1.activeKeybindRecorderStop.isSome }

/-- A row `r` starts recording: its React `isRecording` flag becomes true
and its effect runs — if another row's stop capability is registered it
is invoked (pre-empting that row: its `isRecording` flag drops to false
and its own effect re-runs once this one finishes), then row `r`'s stop
capability is registered and `isRecordingKeybind` is raised.  Returns the
new state together with the list of stop capabilities invoked. -/
def startRecording (r : Nat) (s : RecorderState) : RecorderState × List Nat :=
  let s0 := { s with rowRecording := fun i => if i = r then true else s.rowRecording i }
  match s0.activeKeybindRecorderStop with
  | some r2 =>
    if r2 = r then
      ({ s0 with activeKeybindRecorderStop := some r, isRecordingKeybind := true }, [])
    else
      let s1 := { s0 with rowRecording := fun i => if i = r2 then false else s0.rowRecording i }
      let s2 := { s1 with activeKeybindRecorderStop := some r, isRecordingKeybind := true }
      (runStopEffect r2 s2, [r2])
  | none =>
    ({ s0 with activeKeybindRecorderStop := some r, isRecordingKeybind := true }, [])

/-- A row `r` stops recording (commit of a captured key, Escape, or the
user toggling recording off): its `isRecording` flag drops to false and
its effect runs. -/
def stopRecordingRow (r : Nat) (s : RecorderState) : RecorderState :=
  runStopEffect r { s with rowRecording := fun i => if i = r then false else s.rowRecording i }

/-- The recorder-arbiter transition system: states reachable from the
initial globals by rows starting and stopping recording. -/
inductive ReachableRecorder : RecorderState → Prop
  | init : ReachableRecorder initialRecorderState
  | start (r : Nat) (s : RecorderState) :
      ReachableRecorder s → ReachableRecorder (startRecording r s).1
  | stop (r : Nat) (s : RecorderState) :
      ReachableRecorder s → ReachableRecorder (stopRecordingRow r s)

/-- An observable listener registration action on `window`. -/
inductive ListenerAction where
  | addListener
  | removeListener
  deriving DecidableEq, Repr

/-- `startHotkeyListener` from `src/index.tsx`: a no-op when the guard
flag is already set, otherwise registers the `keydown` listener and sets
the flag. -/
def startHotkeyListener (s : RecorderState) : RecorderState × List ListenerAction :=
  if s.hotkeyListenerActive then (s, [])
  else ({ s with hotkeyListenerActive := true }, [ListenerAction.addListener])

/-- `stopHotkeyListener` from `src/index.tsx`: a no-op when the guard
flag is clear, otherwise deregisters the listener, clears the flag,
clears the registered recorder stop capability and resets the
recording-suppression flag. -/
def stopHotkeyListener (s : RecorderState) : RecorderState × List ListenerAction :=
  if !s.hotkeyListenerActive then (s, [])
  else
    ({ s with hotkeyListenerActive := false, activeKeybindRecorderStop := none,
              isRecordingKeybind := false },
     [ListenerAction.removeListener])

/-- Modelled from the spec's words for the refinement claim about
connection choice: the first connection whose context equals "default"
when one exists, otherwise the first connection in iteration order,
otherwise absent. -/
def getDefaultMediaConnectionSpec (mediaEngine : Option MediaEngine) : Option Connection :=
  match mediaEngine with
  | none => none
  | some engine =>
    match engine.connections.find? (fun c => c.context == "default") with
    | some c => some c
    | none => engine.connections.head?

/-- The recorder-arbiter invariant: every row whose React `isRecording`
flag is raised is the row whose stop capability is registered. -/
def recorderInv (s : RecorderState) : Prop :=
  ∀ i, s.rowRecording i = true → s.activeKeybindRecorderStop = some i

theorem findConnection_spec (cs : List Connection) (fb : Option Connection) :
    findConnection cs fb =
      match cs.find? (fun c => c.context == "default"), fb with
      | some d, _ => some d
      | none, some f => some f
      | none, none => cs.head? := by
  induction cs generalizing fb with
  | nil => cases fb <;> simp [findConnection]
  | cons c rest ih =>
    by_cases h : c.context == "default"
    · cases fb <;> simp [findConnection, h, List.find?_cons_of_pos]
    · cases fb <;>
        simp [findConnection, h, List.find?_cons_of_neg, ih] <;>
        cases rest.find? (fun c => c.context == "default") <;> simp

theorem reachable_recorderInv (s : RecorderState) (hs : ReachableRecorder s) :
    recorderInv s := by
  induction hs with
  | init => intro i h; simp [initialRecorderState] at h
  | start r s hs ih =>
    intro i h
    cases hA : s.activeKeybindRecorderStop with
    | none =>
      simp [startRecording, hA] at h ⊢
      by_cases hir : i = r
      · simp [hir]
      · simp [hir] at h
        have := ih i h
        rw [hA] at this
        exact absurd this (by simp)
    | some r2 =>
      by_cases hr : r2 = r
      · subst hr
        simp [startRecording, hA] at h ⊢
        by_cases hir : i = r2
        · simp [hir]
        · simp [hir] at h
          have := ih i h
          rw [hA] at this
          simp at this
          exact absurd this.symm hir
      · simp [startRecording, hA, hr, runStopEffect, Option.some.injEq, Ne.symm hr] at h ⊢
        by_cases hir2 : i = r2
        · simp [hir2] at h
        · simp [hir2] at h
          by_cases hir : i = r
          · simp [hir]
          · simp [hir] at h
            have := ih i h
            rw [hA] at this
            simp at this
            exact absurd this.symm hir2
  | stop r s hs ih =>
    intro i h
    by_cases hir : i = r
    · simp [stopRecordingRow, runStopEffect, hir] at h
      by_cases hA : s.activeKeybindRecorderStop = some r <;> simp [hA] at h
    · have hrec : s.rowRecording i = true := by
        by_cases hA : s.activeKeybindRecorderStop = some r <;>
          simpa [stopRecordingRow, runStopEffect, hA, hir] using h
      have hstop := ih i hrec
      have hne : ¬ s.activeKeybindRecorderStop = some r := by
        rw [hstop]; simp [hir]
      simpa [stopRecordingRow, runStopEffect, hne, hir] using hstop

/-- C10: every engine setter call targets the connection chosen as the
first one whose context equals "default" when one exists, otherwise the
first connection in iteration order, otherwise none — and with no
connection the setter call is skipped. -/
theorem engine_setter_targets_default_connection :
    (∀ mediaEngine, getDefaultMediaConnection mediaEngine =
      getDefaultMediaConnectionSpec mediaEngine) ∧
    (∀ mediaEngine muted, setLocalMute mediaEngine muted =
      match getDefaultMediaConnection mediaEngine with
      | some c => [EngineCall.selfMute c muted]
      | none => []) ∧
    (∀ mediaEngine deafened, setLocalDeaf mediaEngine deafened =
      match getDefaultMediaConnection mediaEngine with
      | some c => [EngineCall.selfDeaf c deafened]
      | none => []) := by
  refine ⟨?_, fun _ _ => rfl, fun _ _ => rfl⟩
  intro mediaEngine
  cases mediaEngine with
  | none => rfl
  | some engine =>
    show findConnection engine.connections none = _
    rw [findConnection_spec]
    unfold getDefaultMediaConnectionSpec
    cases hfind : engine.connections.find? (fun c => c.context == "default") <;>
      simp [hfind]

/-- C8: formatting the descriptor for Alt+M on a non-Mac platform yields
"Alt+M", and formatting an absent descriptor yields "Not set". -/
theorem format_alt_m_and_absent :
    formatKeybind false (some ⟨"m", "KeyM", false, false, true, false⟩) = "Alt+M" ∧
    formatKeybind false none = "Not set" := by
  constructor <;> decide

/-- C5: round-trip — for every keyboard event whose key is not a pure
modifier, `keybindFromEvent` produces a descriptor and `matchesKeybind`
accepts the event against it. -/
theorem keybind_roundTrip (event : KeyboardEvent)
    (h : MODIFIER_KEYS.contains event.key = false) :
    (keybindFromEvent event).isSome = true ∧
    matchesKeybind event (keybindFromEvent event) = true := by
  rw [keybindFromEvent, if_neg (by rw [h]; simp)]
  refine ⟨rfl, ?_⟩
  by_cases hc : event.code = "" <;> simp [matchesKeybind, hc]

theorem keybind_roundTrip_witness :
    (keybindFromEvent ⟨"m", "KeyM", true, false, false, false, false, false, none⟩).isSome
        = true ∧
    matchesKeybind ⟨"m", "KeyM", true, false, false, false, false, false, none⟩
      (keybindFromEvent ⟨"m", "KeyM", true, false, false, false, false, false, none⟩)
        = true :=
  keybind_roundTrip _ (by decide)

/-- C3: disabling fake state with the shadow slot unset commands the
engine setter with the currently observed real flag from the voice-state
service, and the slot stays unset afterwards (both channels). -/
theorem sync_false_unset_slot_reconciles (env : Env) (vs : VoiceState) (bM bD : Bool)
    (hvs : env.voiceState = some vs) (hm : vs.selfMute = some bM)
    (hd : vs.selfDeaf = some bD) :
    syncFakeMute env false none = (none, setLocalMute env.mediaEngine bM) ∧
    syncFakeDeafen env false none = (none, setLocalDeaf env.mediaEngine bD) := by
  constructor <;> simp [syncFakeMute, syncFakeDeafen, hvs, hm, hd]

theorem sync_false_unset_slot_reconciles_witness :
    syncFakeMute ⟨some ⟨some true, some true⟩, some ⟨[⟨"default"⟩]⟩⟩ false none =
      (none, [EngineCall.selfMute ⟨"default"⟩ true]) ∧
    syncFakeDeafen ⟨some ⟨some true, some true⟩, some ⟨[⟨"default"⟩]⟩⟩ false none =
      (none, [EngineCall.selfDeaf ⟨"default"⟩ true]) :=
  sync_false_unset_slot_reconciles _ _ true true rfl rfl rfl

/-- C1: for either channel, `sync true` followed immediately by
`sync false` emits a final engine-setter call carrying the real flag
value observed from the voice-state service right before the `sync true`
call — for any initial real flag value and any prior slot content — and
leaves the channel's shadow slot unset. -/
theorem sync_enable_then_disable_restores (env1 env2 : Env) (sM sD : Option Bool)
    (bM bD : Bool) (vs : VoiceState) (c : Connection)
    (hvs : env1.voiceState = some vs) (hm : vs.selfMute = some bM)
    (hd : vs.selfDeaf = some bD)
    (hc : getDefaultMediaConnection env2.mediaEngine = some c) :
    syncFakeMute env2 false (syncFakeMute env1 true sM).1 =
      (none, [EngineCall.selfMute c bM]) ∧
    syncFakeDeafen env2 false (syncFakeDeafen env1 true sD).1 =
      (none, [EngineCall.selfDeaf c bD]) := by
  have h1 : (syncFakeMute env1 true sM).1 = some bM := by simp [syncFakeMute, hvs, hm]
  have h2 : (syncFakeDeafen env1 true sD).1 = some bD := by simp [syncFakeDeafen, hvs, hd]
  rw [h1, h2]
  constructor <;> simp [syncFakeMute, syncFakeDeafen, setLocalMute, setLocalDeaf, hc]

theorem sync_enable_then_disable_restores_witness :
    syncFakeMute ⟨none, some ⟨[⟨"default"⟩]⟩⟩ false
      (syncFakeMute ⟨some ⟨some true, some false⟩, some ⟨[⟨"default"⟩]⟩⟩ true none).1 =
      (none, [EngineCall.selfMute ⟨"default"⟩ true]) ∧
    syncFakeDeafen ⟨none, some ⟨[⟨"default"⟩]⟩⟩ false
      (syncFakeDeafen ⟨some ⟨some true, some false⟩, some ⟨[⟨"default"⟩]⟩⟩ true none).1 =
      (none, [EngineCall.selfDeaf ⟨"default"⟩ false]) :=
  sync_enable_then_disable_restores _ _ none none true false _ _ rfl rfl rfl rfl

/-- C9: a second `sync true` with no intervening `sync false` overwrites
the shadow slot with the real flag observed at the second call, so the
following `sync false` restores the later observation, not the first. -/
theorem sync_enable_twice_overwrites (env1 env2 env3 : Env) (sM sD : Option Bool)
    (vs1 vs2 : VoiceState) (b1M b2M b1D b2D : Bool) (c : Connection)
    (h1 : env1.voiceState = some vs1) (h2 : env2.voiceState = some vs2)
    (hm1 : vs1.selfMute = some b1M) (hm2 : vs2.selfMute = some b2M)
    (hd1 : vs1.selfDeaf = some b1D) (hd2 : vs2.selfDeaf = some b2D)
    (hc : getDefaultMediaConnection env3.mediaEngine = some c) :
    (syncFakeMute env2 true (syncFakeMute env1 true sM).1).1 = some b2M ∧
    syncFakeMute env3 false (syncFakeMute env2 true (syncFakeMute env1 true sM).1).1 =
      (none, [EngineCall.selfMute c b2M]) ∧
    (syncFakeDeafen env2 true (syncFakeDeafen env1 true sD).1).1 = some b2D ∧
    syncFakeDeafen env3 false (syncFakeDeafen env2 true (syncFakeDeafen env1 true sD).1).1 =
      (none, [EngineCall.selfDeaf c b2D]) := by
  have hM2 : (syncFakeMute env2 true (syncFakeMute env1 true sM).1).1 = some b2M := by
    simp [syncFakeMute, h2, hm2]
  have hD2 : (syncFakeDeafen env2 true (syncFakeDeafen env1 true sD).1).1 = some b2D := by
    simp [syncFakeDeafen, h2, hd2]
  refine ⟨hM2, ?_, hD2, ?_⟩
  · rw [hM2]; simp [syncFakeMute, setLocalMute, hc]
  · rw [hD2]; simp [syncFakeDeafen, setLocalDeaf, hc]

theorem sync_enable_twice_overwrites_witness :
    (syncFakeMute ⟨some ⟨some false, some true⟩, none⟩ true
      (syncFakeMute ⟨some ⟨some true, some false⟩, none⟩ true none).1).1 = some false ∧
    syncFakeMute ⟨none, some ⟨[⟨"default"⟩]⟩⟩ false
      (syncFakeMute ⟨some ⟨some false, some true⟩, none⟩ true
        (syncFakeMute ⟨some ⟨some true, some false⟩, none⟩ true none).1).1 =
      (none, [EngineCall.selfMute ⟨"default"⟩ false]) ∧
    (syncFakeDeafen ⟨some ⟨some false, some true⟩, none⟩ true
      (syncFakeDeafen ⟨some ⟨some true, some false⟩, none⟩ true none).1).1 = some true ∧
    syncFakeDeafen ⟨none, some ⟨[⟨"default"⟩]⟩⟩ false
      (syncFakeDeafen ⟨some ⟨some false, some true⟩, none⟩ true
        (syncFakeDeafen ⟨some ⟨some true, some false⟩, none⟩ true none).1).1 =
      (none, [EngineCall.selfDeaf ⟨"default"⟩ true]) :=
  sync_enable_twice_overwrites _ _ _ none none _ _ true false false true _
    rfl rfl rfl rfl rfl rfl rfl

/-- C2 counterexample: an invocation of `syncFakeMute false` with the
shadow slot unset and the voice state unavailable emits zero engine
setter calls even though the engine connection resolves — refuting the
claim that an unresolvable connection is the sole zero-setter case. -/
theorem sync_zero_setters_with_connection :
    (getDefaultMediaConnection (some ⟨[⟨"default"⟩]⟩)).isSome = true ∧
    (syncFakeMute ⟨none, some ⟨[⟨"default"⟩]⟩⟩ false none).2 = [] := by
  constructor <;> rfl

/-- C2 (amended): every invocation of sync (either channel) calls at
most one engine setter, and calls none exactly when the engine connection
cannot be resolved or when it is a disable (`sync false`) with the shadow
slot unset and the voice state unavailable. -/
theorem sync_calls_at_most_one_setter (env : Env) (next : Bool) (sM sD : Option Bool) :
    ((syncFakeMute env next sM).2.length ≤ 1 ∧
      ((syncFakeMute env next sM).2 = [] ↔
        getDefaultMediaConnection env.mediaEngine = none ∨
          (next = false ∧ sM = none ∧ env.voiceState = none))) ∧
    ((syncFakeDeafen env next sD).2.length ≤ 1 ∧
      ((syncFakeDeafen env next sD).2 = [] ↔
        getDefaultMediaConnection env.mediaEngine = none ∨
          (next = false ∧ sD = none ∧ env.voiceState = none))) := by
  cases hgdc : getDefaultMediaConnection env.mediaEngine <;>
    cases next <;> cases sM <;> cases sD <;> cases hvs : env.voiceState <;>
      simp [syncFakeMute, syncFakeDeafen, setLocalMute, setLocalDeaf, hgdc, hvs]

/-- C6: when the key event's target is a text-editing surface, the
hotkey dispatcher changes nothing — the plugin state (both fake flags and
both shadow slots) is unchanged, no engine call is issued and the event
is not marked handled — even if the event matches a configured shortcut. -/
theorem hotkeys_ignored_on_text_target (env : Env) (event : KeyboardEvent)
    (st : PluginState) (h : shouldIgnoreKeybindTarget event.target = true) :
    handleHotkeys env event st = (st, [], false) := by
  unfold handleHotkeys
  by_cases h1 : event.defaultPrevented || event.isRepeat || st.isRecordingKeybind <;>
    simp [h1, h]

theorem hotkeys_ignored_on_text_target_witness :
    handleHotkeys ⟨some ⟨some true, some true⟩, some ⟨[⟨"default"⟩]⟩⟩
      ⟨"m", "KeyM", false, false, true, false, false, false, some ("INPUT", false)⟩
      ⟨false, false, some ⟨"m", "KeyM", false, false, true, false⟩, none, none, none, false⟩ =
      (⟨false, false, some ⟨"m", "KeyM", false, false, true, false⟩, none, none, none, false⟩,
        [], false) :=
  hotkeys_ignored_on_text_target _ _ _ rfl

/-- C7: `startHotkeyListener` is idempotent (from a stopped state it
registers the listener exactly once and the second call is a guarded
no-op), `stopHotkeyListener` on a stopped listener is a guarded no-op,
and on a running listener it deregisters the listener, clears the active
recorder stop capability and resets the recording-suppression flag. -/
theorem hotkey_listener_lifecycle :
    (∀ s : RecorderState, s.hotkeyListenerActive = true →
      startHotkeyListener s = (s, [])) ∧
    (∀ s : RecorderState, s.hotkeyListenerActive = false →
      (startHotkeyListener s).2 = [ListenerAction.addListener] ∧
      startHotkeyListener (startHotkeyListener s).1 = ((startHotkeyListener s).1, [])) ∧
    (∀ s : RecorderState, s.hotkeyListenerActive = false →
      stopHotkeyListener s = (s, [])) ∧
    (∀ s : RecorderState, s.hotkeyListenerActive = true →
      stopHotkeyListener s =
        ({ s with hotkeyListenerActive := false, activeKeybindRecorderStop := none,
                  isRecordingKeybind := false }, [ListenerAction.removeListener])) := by
  refine ⟨?_, ?_, ?_, ?_⟩ <;> intro s h <;>
    simp [startHotkeyListener, stopHotkeyListener, h]

theorem hotkey_listener_lifecycle_witness :
    startHotkeyListener ⟨fun _ => false, none, false, true⟩ =
      (⟨fun _ => false, none, false, true⟩, []) ∧
    ((startHotkeyListener ⟨fun _ => false, none, false, false⟩).2 =
        [ListenerAction.addListener] ∧
      startHotkeyListener (startHotkeyListener ⟨fun _ => false, none, false, false⟩).1 =
        ((startHotkeyListener ⟨fun _ => false, none, false, false⟩).1, [])) ∧
    stopHotkeyListener ⟨fun _ => false, none, false, false⟩ =
      (⟨fun _ => false, none, false, false⟩, []) ∧
    stopHotkeyListener ⟨fun _ => true, some 0, true, true⟩ =
      (⟨fun _ => true, none, false, false⟩, [ListenerAction.removeListener]) :=
  ⟨hotkey_listener_lifecycle.1 _ rfl,
   hotkey_listener_lifecycle.2.1 _ rfl,
   hotkey_listener_lifecycle.2.2.1 _ rfl,
   hotkey_listener_lifecycle.2.2.2 _ rfl⟩

/-- C4: in every state of the recorder arbiter reachable from the initial
globals, at most one row is recording; and when a row starts recording
while another row's stop capability is registered, that capability is the
one (and only one) invoked, after which the new row is the registered
active one and the pre-empted row is no longer recording. -/
theorem recorder_at_most_one_active :
    (∀ s : RecorderState, ReachableRecorder s →
      ∀ i j, s.rowRecording i = true → s.rowRecording j = true → i = j) ∧
    (∀ (s : RecorderState) (r r2 : Nat),
      s.activeKeybindRecorderStop = some r2 → r2 ≠ r →
      (startRecording r s).2 = [r2] ∧
      (startRecording r s).1.activeKeybindRecorderStop = some r ∧
      (startRecording r s).1.rowRecording r2 = false ∧
      (startRecording r s).1.rowRecording r = true) := by
  constructor
  · intro s hs i j hi hj
    have hinv := reachable_recorderInv s hs
    have h1 := hinv i hi
    have h2 := hinv j hj
    rw [h1] at h2
    exact (Option.some.injEq _ _).mp h2
  · intro s r r2 hA hr
    refine ⟨?_, ?_, ?_, ?_⟩ <;>
      simp [startRecording, hA, hr, runStopEffect, Ne.symm hr]

theorem recorder_at_most_one_active_witness :
    (startRecording 1 (startRecording 0 initialRecorderState).1).2 = [0] ∧
    (startRecording 1 (startRecording 0 initialRecorderState).1).1.activeKeybindRecorderStop
      = some 1 ∧
    (startRecording 1 (startRecording 0 initialRecorderState).1).1.rowRecording 0 = false ∧
    (0 : Nat) = 0 :=
  ⟨(recorder_at_most_one_active.2 _ 1 0 rfl (by decide)).1,
   (recorder_at_most_one_active.2 _ 1 0 rfl (by decide)).2.1,
   (recorder_at_most_one_active.2 _ 1 0 rfl (by decide)).2.2.1,
   recorder_at_most_one_active.1 _ (ReachableRecorder.start 0 _ ReachableRecorder.init)
     0 0 rfl rfl⟩

end FakeMute
